import Mathlib

/-!
Shallow embedding of tester/testing.py (Javalette compiler test harness).

External effects (child processes, the filesystem) are modelled as explicit
behaviour parameters: a child-process run is a record of its exit code and
captured output streams, the filesystem is a pair of functions (directory
listing, file existence), and a raised TestingException or OSError is the
error branch of an Except value.  Machine strings are Lean strings; the
Python str.strip operation is modelled by pystrip below.
-/

namespace Testing

/-- Model of Python str.strip on a character list: drop whitespace from both
ends.  Lean Char.isWhitespace covers the blank characters the fixtures use. -/
def pystripL (l : List Char) : List Char :=
  ((l.dropWhile Char.isWhitespace).reverse.dropWhile Char.isWhitespace).reverse

/-- Model of Python str.strip, as used on compiler stderr in run_compiler
(testing.py line 210). -/
def pystrip (s : String) : String :=
  ⟨pystripL s.data⟩

/-- Model of the Python substring test (the `in` operator on str), used by
the Bad-case classification in run_compiler (testing.py line 222). -/
def containsSub (hay needle : String) : Bool :=
  decide (needle.data <:+: hay.data)

/-- Observed behaviour of one child process: exit code and decoded output
streams (testing.py lines 204-210). -/
structure CompilerBeh where
  returncode : Int
  stdout : String
  stderr : String
  deriving DecidableEq

/-- The Struct record returned by run_compiler and exec_test
(testing.py lines 224-229 and 281-286). -/
structure CompileData where
  stderr_actual : String
  stderr_expected : String
  stdout_expected : String
  stdout_actual : String
  stdout_compiler : String
  deriving DecidableEq

/-- Embedding of run_compiler (testing.py lines 201-229).  The child argument
is the behaviour of the compiler-under-test process on this source file; none
stands for an OSError while launching it, which raises TestingException. -/
def run_compiler (child : Option CompilerBeh) (is_good : Bool) :
    Except String (Bool × CompileData) :=
  match child with
  | none => Except.error "Unable to execute the compiler"
  | some child =>
    let stdout := child.stdout
    let stderr := pystrip child.stderr
    let stderr_expected := if is_good then "OK" else "ERROR"
    let ok :=
      if is_good then stderr == "OK" && child.returncode == 0
      else containsSub stderr "ERROR" && !(child.returncode == 0)
    Except.ok (ok, ⟨stderr, stderr_expected, "", "", stdout⟩)

/-- Observed behaviour of one run of the produced executable ./a.out
(testing.py lines 267-273); only its captured stdout is inspected. -/
structure RunBeh where
  stdout : String
  deriving DecidableEq

/-- Environment of one exec_test call: the behaviour of the compiler child
process (none encodes an OSError on launch), the behaviour of the chosen
linker on the compiler stdout (error encodes a TestingException raised by a
failing external tool), the optional input and output fixtures, and the
behaviour of the produced executable (none encodes an OSError on launch).
The stdin wiring of the input fixture (testing.py line 259) is reflected in
the prog behaviour. -/
structure ExecEnv where
  compiler : Option CompilerBeh
  link : String → Except String Unit
  input_fixture : Option String
  output_fixture : Option String
  prog : Option RunBeh

/-- Result of exec_test together with two observability flags recording
whether control reached the linker call site (testing.py line 255) and the
program-run call site (testing.py line 268). -/
structure ExecResult where
  result : Except String (Bool × CompileData)
  linker_invoked : Bool
  runner_invoked : Bool

/-- Embedding of exec_test (testing.py lines 240-286).  has_linker is true
when a concrete backend supplied a linker (the Python linker argument is not
None). -/
def exec_test (env : ExecEnv) (is_good : Bool) (has_linker : Bool) : ExecResult :=
  match run_compiler env.compiler is_good with
  | Except.error e => ⟨Except.error e, false, false⟩
  | Except.ok (compiler_success, data) =>
    if !compiler_success || !is_good || !has_linker then
      ⟨Except.ok (compiler_success, data), false, false⟩
    else
      match env.link data.stdout_compiler with
      | Except.error e => ⟨Except.error e, true, false⟩
      | Except.ok _ =>
        let stdout_expected :=
          match env.output_fixture with
          | some contents => contents
          | none => ""
        match env.prog with
        | none => ⟨Except.error "Unable to execute ./a.out", true, true⟩
        | some child =>
          let stdout_actual := child.stdout
          let success := stdout_actual == stdout_expected
          ⟨Except.ok (success,
              ⟨data.stderr_actual, data.stderr_expected,
               stdout_expected, stdout_actual, data.stdout_compiler⟩),
           true, true⟩

/-- Embedding of one pass of the test loop in run_tests (testing.py lines
497-505 for the typecheck pass, lines 520-528 for a backend pass): fold over
the test list, counting ok and failed tests and appending failure records.
The ex argument gives the environment each test case runs in. -/
def run_pass (ex : String × Bool → ExecEnv) (has_linker : Bool) :
    List (String × Bool) → Nat → Nat → List (String × CompileData) →
    Except String (Nat × Nat × List (String × CompileData))
  | [], tests_ok, tests_bad, failures => Except.ok (tests_ok, tests_bad, failures)
  | t :: rest, tests_ok, tests_bad, failures =>
    match (exec_test (ex t) t.2 has_linker).result with
    | Except.error e => Except.error e
    | Except.ok (is_ok, data) =>
      if is_ok then
        run_pass ex has_linker rest (tests_ok + 1) tests_bad failures
      else
        run_pass ex has_linker rest tests_ok (tests_bad + 1)
          (failures ++ [(t.1, data)])

/-- Final state of run_tests after its loops (testing.py lines 489-533): the
counters of the last executed pass, the accumulated failure records, and the
success flag computed at line 533. -/
structure RunResult where
  tests_ok : Nat
  tests_bad : Nat
  failures : List (String × CompileData)
  success : Bool
  deriving DecidableEq

/-- Embedding of the backend loop of run_tests (testing.py lines 507-529):
one pass per backend suffix, resetting the counters to zero at the start of
each pass while threading the failures list through unchanged.  The env
argument gives, per backend suffix, the environment each test case runs in. -/
def run_backend_passes (env : String → String × Bool → ExecEnv)
    (tests : List (String × Bool)) :
    List String → Nat → Nat → List (String × CompileData) →
    Except String RunResult
  | [], tests_ok, tests_bad, failures =>
    Except.ok ⟨tests_ok, tests_bad, failures, tests_ok == tests.length⟩
  | b :: rest, _, _, failures =>
    match run_pass (env b) true tests 0 0 failures with
    | Except.error e => Except.error e
    | Except.ok (tests_ok, tests_bad, failures2) =>
      run_backend_passes env tests rest tests_ok tests_bad failures2

/-- Embedding of run_tests (testing.py lines 474-533).  With an empty
backend list a single typecheck pass runs with no linker; otherwise one
backend pass runs per requested suffix.  The success flag is the line 533
comparison of the final counters against the total number of tests. -/
def run_tests (env : String → String × Bool → ExecEnv) (backends : List String)
    (tests : List (String × Bool)) : Except String RunResult :=
  if backends.isEmpty then
    match run_pass (env "") false tests 0 0 [] with
    | Except.error e => Except.error e
    | Except.ok (tests_ok, tests_bad, failures) =>
      Except.ok ⟨tests_ok, tests_bad, failures, tests_ok == tests.length⟩
  else
    run_backend_passes env tests backends 0 0 []

/-- Embedding of the failure-detail rendering in run_tests (testing.py lines
534-552): when the success flag is set only the success banner is printed and
no failure block appears; otherwise one block per recorded failure is
printed, in list order. -/
def show_results (r : RunResult) : List (String × CompileData) :=
  if r.success then [] else r.failures

/-- Embedding of the exit disposition of main (testing.py lines 596-633):
the failure flag is set exactly when the try block raised (TestingException
or any other exception), and the finally block exits with code 1 when the
flag is set and code 0 otherwise.  The argument is the outcome of the try
block, whose final step is run_tests. -/
def main_exit (session : Except String RunResult) : Nat :=
  match session with
  | Except.error _ => 1
  | Except.ok _ => 0

/-- Filesystem model for the catalog scan: a directory listing (none encodes
a missing directory, on which Python os.listdir raises FileNotFoundError)
and a regular-file test. -/
structure FS where
  listdir : String → Option (List String)
  isfile : String → Bool

/-- Model of os.path.join for a relative second component. -/
def pathjoin (a b : String) : String := a ++ "/" ++ b

/-- Model of os.path.splitext on a bare file name: split at the last dot,
unless every character before that dot is itself a dot (the posixpath rule
for names with leading dots). -/
def splitext (s : String) : String × String :=
  let rev := s.data.reverse
  let extRev := rev.takeWhile (fun c => c ≠ '.')
  if extRev.length = rev.length then (s, "")
  else
    let baseRev := rev.drop (extRev.length + 1)
    if baseRev.all (fun c => c = '.') then (s, "")
    else (⟨baseRev.reverse⟩, ⟨'.' :: extRev.reverse⟩)

/-- Embedding of build_list (testing.py lines 291-296): list the directory
(raising when it is missing), keep regular files with extension .jl, and
append one (base path, is_good) entry per kept file to the accumulator. -/
def build_list (fs : FS) (tests : List (String × Bool)) (path : String)
    (is_good : Bool) : Except String (List (String × Bool)) :=
  match fs.listdir path with
  | none => Except.error ("FileNotFoundError: " ++ path)
  | some names =>
    Except.ok (tests ++ names.filterMap (fun fname =>
      if fs.isfile (pathjoin path fname) then
        if (splitext fname).2 = ".jl" then
          some (pathjoin path (splitext fname).1, is_good)
        else none
      else none))

/-- Embedding of clean_files (testing.py lines 129-132) on a working
directory modelled as the list of present file names: every named file that
exists is removed. -/
def clean_files (files : List String) (present : List String) : List String :=
  present.filter (fun f => !(files.contains f))

/-- Success or failure of each external tool invoked by link_llvm
(testing.py lines 153-164). -/
structure LlvmTools where
  as_ok : Bool
  link_ok : Bool
  clang_ok : Bool

/-- Embedding of link_llvm (testing.py lines 153-164) as a transformer of
the working-directory file set.  The tmp argument is the unique name chosen
by mkstemp; a failing tool raises (the error branch) and the finally block
(modelled by applying clean_files on every branch) removes the temporary
bitcode file and main.bc before returning. -/
def link_llvm (tools : LlvmTools) (tmp : String) (present : List String) :
    Except String Unit × List String :=
  let present := tmp :: present
  if !tools.as_ok then
    (Except.error "llvm-as failed", clean_files [tmp, "main.bc"] present)
  else if !tools.link_ok then
    (Except.error "llvm-link failed", clean_files [tmp, "main.bc"] present)
  else
    let present := "main.bc" :: present
    if !tools.clang_ok then
      (Except.error "clang failed", clean_files [tmp, "main.bc"] present)
    else
      let present := "a.out" :: present
      (Except.ok (), clean_files [tmp, "main.bc"] present)

/-- Success or failure of each external tool invoked by link_x86
(testing.py lines 169-190). -/
structure X86Tools where
  nasm_ok : Bool
  clang_ok : Bool

/-- Embedding of link_x86 (testing.py lines 169-190) as a transformer of the
working-directory file set.  tmp_s and tmp_o are the unique names chosen by
the two mkstemp calls; the finally block (applied on every branch) removes
both temporary files before returning. -/
def link_x86 (tools : X86Tools) (tmp_s tmp_o : String) (present : List String) :
    Except String Unit × List String :=
  let present := tmp_s :: tmp_o :: present
  if !tools.nasm_ok then
    (Except.error "nasm failed", clean_files [tmp_s, tmp_o] present)
  else if !tools.clang_ok then
    (Except.error "clang failed", clean_files [tmp_s, tmp_o] present)
  else
    let present := "a.out" :: present
    (Except.ok (), clean_files [tmp_s, tmp_o] present)

/-- Specification helper for reasoning about failure accumulation: the
failure records each backend pass would produce when started from an empty
failures list, one list per backend, in pass order.  It is defined through
the same run_pass embedding; none signals a pass that aborts. -/
def per_pass_failures (env : String → String × Bool → ExecEnv)
    (tests : List (String × Bool)) :
    List String → Option (List (List (String × CompileData)))
  | [] => some []
  | b :: rest =>
    match run_pass (env b) true tests 0 0 [] with
    | Except.error _ => none
    | Except.ok (_, _, f) =>
      (per_pass_failures env tests rest).map (fun l => f :: l)

/-! Helper lemmas about trimming and substring containment. -/

/-- A nonempty pattern whose first character fails the predicate occurs in
dropWhile p l exactly when it occurs in l. -/
theorem infix_dropWhile_iff (p : Char → Bool) (c : Char) (t l : List Char)
    (hc : p c = false) : (c :: t) <:+: l.dropWhile p ↔ (c :: t) <:+: l := by
  constructor
  · intro h
    exact h.trans ( List.dropWhile_suffix p).isInfix
  · intro h
    induction l with
    | nil => simp at h
    | cons a l ih =>
      rw [List.dropWhile_cons]
      by_cases hpa : p a = true
      · simp only [hpa, if_true]
        apply ih
        rcases List.infix_cons_iff.mp h with hpre | hinf
        · rcases List.cons_prefix_cons.mp hpre with ⟨hca, -⟩
          rw [← hca, hc] at hpa
          exact absurd hpa (by simp)
        · exact hinf
      · simp only [hpa, if_false]
        exact h

/-- The pattern ERROR occurs in the trimmed character list exactly when it
occurs in the original list: trimming removes only whitespace at the two
ends, and ERROR neither starts nor ends with whitespace. -/
theorem err_infix_pystripL (l : List Char) :
    "ERROR".data <:+: pystripL l ↔ "ERROR".data <:+: l := by
  have he : "ERROR".data = 'E' :: ['R', 'R', 'O', 'R'] := rfl
  have hr : "ERROR".data.reverse = 'R' :: ['O', 'R', 'R', 'E'] := rfl
  unfold pystripL
  have step1 := @List.reverse_infix Char ("ERROR".data.reverse)
      ((l.dropWhile Char.isWhitespace).reverse.dropWhile Char.isWhitespace)
  rw [List.reverse_reverse] at step1
  rw [step1, hr,
    infix_dropWhile_iff Char.isWhitespace 'R' ['O', 'R', 'R', 'E'] _ (by decide),
    ← hr, List.reverse_infix, he,
    infix_dropWhile_iff Char.isWhitespace 'E' ['R', 'R', 'O', 'R'] l (by decide)]

/-- Trimming the haystack does not change whether ERROR occurs in it. -/
theorem containsSub_pystrip (s : String) :
    containsSub (pystrip s) "ERROR" = containsSub s "ERROR" := by
  unfold containsSub pystrip
  exact decide_eq_decide.mpr (err_infix_pystripL s.data)

/-! Claim theorems. -/

/-- C3: for a test case with expectedOutcome Good, CompileOutcome.passed is
true if and only if the trimmed compiler stderr equals exactly the string OK
and the exit code is 0. -/
theorem C3_good_exact_ok (child : CompilerBeh) :
    (∃ d, run_compiler (some child) true = Except.ok (true, d)) ↔
    (pystrip child.stderr = "OK" ∧ child.returncode = 0) := by
  simp [run_compiler, Bool.and_eq_true, beq_iff_eq]

/-- C4: for a test case with expectedOutcome Bad, CompileOutcome.passed is
true if and only if the compiler stderr contains ERROR as a substring (any
surrounding text permitted) and the exit code is non-zero. -/
theorem C4_bad_substring (child : CompilerBeh) :
    (∃ d, run_compiler (some child) false = Except.ok (true, d)) ↔
    (containsSub child.stderr "ERROR" = true ∧ child.returncode ≠ 0) := by
  rw [← containsSub_pystrip]
  simp [run_compiler, Bool.and_eq_true, beq_iff_eq]

/-! Example environments used by concrete evaluations. -/

/-- Example environment: a well-behaved compiler on a passing Good case,
with a succeeding linker, no fixtures, and a program that prints nothing. -/
def envGoodPass : ExecEnv :=
  { compiler := some ⟨0, "ir", "OK"⟩
    link := fun _ => Except.ok ()
    input_fixture := none
    output_fixture := none
    prog := some ⟨""⟩ }

/-- Example environment: the compiler rejects a Good case (stderr is a type
error instead of OK, exit code 1), so the compile stage fails the test. -/
def envGoodFail : ExecEnv :=
  { compiler := some ⟨1, "", "Type ERROR"⟩
    link := fun _ => Except.ok ()
    input_fixture := none
    output_fixture := none
    prog := some ⟨""⟩ }

/-- C5: the backend linker and the produced executable are reached only when
the test case is Good, a concrete backend supplied a linker, and the compile
step passed; a Bad case, a failed compile, or typecheck-only mode never
reaches either call site (and the runner is reached only through the
linker). -/
theorem C5_linker_runner_guard (env : ExecEnv) (g hl : Bool)
    (h : (exec_test env g hl).linker_invoked = true ∨
      (exec_test env g hl).runner_invoked = true) :
    g = true ∧ hl = true ∧
      ∃ d, run_compiler env.compiler g = Except.ok (true, d) := by
  cases hrc : run_compiler env.compiler g with
  | error e => simp [exec_test, hrc] at h
  | ok v =>
    obtain ⟨cs, data⟩ := v
    cases cs with
    | false => simp [exec_test, hrc] at h
    | true =>
      cases g with
      | false => simp [exec_test, hrc] at h
      | true =>
        cases hl with
        | false => simp [exec_test, hrc] at h
        | true => exact ⟨rfl, rfl, data, rfl⟩

/-- Witness for C5 at a concrete input: in envGoodPass, a Good test under an
active backend with a passing compile does reach the linker, and the guard
conditions hold there. -/
theorem C5_linker_runner_guard_witness :
    true = true ∧ true = true ∧
      ∃ d, run_compiler envGoodPass.compiler true = Except.ok (true, d) :=
  C5_linker_runner_guard envGoodPass true true (Or.inl rfl)

/-- C7: for a Good test case under an active backend whose compile and link
steps succeeded, the per-test verdict is true exactly when the captured
stdout of the produced executable equals the expected-output fixture
contents, or the empty string when no output fixture exists. -/
theorem C7_run_verdict (env : ExecEnv) (d0 : CompileData) (child : RunBeh)
    (hc : run_compiler env.compiler true = Except.ok (true, d0))
    (hl : env.link d0.stdout_compiler = Except.ok ())
    (hp : env.prog = some child) :
    ∃ b d, (exec_test env true true).result = Except.ok (b, d) ∧
      (b = true ↔ child.stdout = env.output_fixture.getD "") := by
  cases hof : env.output_fixture with
  | none =>
    refine ⟨child.stdout == "",
      ⟨d0.stderr_actual, d0.stderr_expected, "", child.stdout,
        d0.stdout_compiler⟩, ?_, ?_⟩
    · simp [exec_test, hc, hl, hp, hof]
    · simp [hof, Option.getD]
  | some contents =>
    refine ⟨child.stdout == contents,
      ⟨d0.stderr_actual, d0.stderr_expected, contents, child.stdout,
        d0.stdout_compiler⟩, ?_, ?_⟩
    · simp [exec_test, hc, hl, hp, hof]
    · simp [hof, Option.getD]

/-- Example environment for the C7 witness: output fixture 25, program
printing 25. -/
def envC7 : ExecEnv :=
  { compiler := some ⟨0, "ir", "OK"⟩
    link := fun _ => Except.ok ()
    input_fixture := some "5"
    output_fixture := some "25"
    prog := some ⟨"25"⟩ }

/-- Witness for C7 at a concrete input: with output fixture 25 and a program
printing 25, the verdict is the byte comparison against the fixture. -/
theorem C7_run_verdict_witness :
    ∃ b d, (exec_test envC7 true true).result = Except.ok (b, d) ∧
      (b = true ↔ "25" = envC7.output_fixture.getD "") :=
  C7_run_verdict envC7 ⟨"OK", "OK", "", "", "ir"⟩ ⟨"25"⟩ rfl rfl rfl

/-- Auxiliary counting lemma for run_pass: a completed pass adds exactly the
length of the remaining test list to the sum of its two counters. -/
theorem run_pass_count (ex : String × Bool → ExecEnv) (hl : Bool)
    (tests : List (String × Bool)) :
    ∀ (tests_ok tests_bad : Nat) (fails : List (String × CompileData))
      (o b : Nat) (f : List (String × CompileData)),
      run_pass ex hl tests tests_ok tests_bad fails = Except.ok (o, b, f) →
      o + b = tests_ok + tests_bad + tests.length := by
  induction tests with
  | nil =>
    intro tests_ok tests_bad fails o b f h
    simp only [run_pass] at h
    injection h with h2
    injection h2 with ho h3
    injection h3 with hb hf
    subst ho
    subst hb
    simp
  | cons t rest ih =>
    intro tests_ok tests_bad fails o b f h
    cases hres : (exec_test (ex t) t.2 hl).result with
    | error e => simp [run_pass, hres] at h
    | ok v =>
      obtain ⟨is_ok, data⟩ := v
      simp only [run_pass, hres] at h
      cases is_ok with
      | true =>
        simp only [if_true] at h
        have := ih (tests_ok + 1) tests_bad fails o b f h
        simp only [List.length_cons]
        omega
      | false =>
        simp only [Bool.false_eq_true, if_false] at h
        have := ih tests_ok (tests_bad + 1) (fails ++ [(t.1, data)]) o b f h
        simp only [List.length_cons]
        omega

/-- C6: every pass that completes without a session-fatal abort ends with
okCount plus failCount equal to the number of discovered test cases: each
test case increments exactly one of the two counters exactly once. -/
theorem C6_pass_counts (ex : String × Bool → ExecEnv) (hl : Bool)
    (tests : List (String × Bool)) (fails0 : List (String × CompileData))
    (o b : Nat) (f : List (String × CompileData))
    (h : run_pass ex hl tests 0 0 fails0 = Except.ok (o, b, f)) :
    o + b = tests.length := by
  have := run_pass_count ex hl tests 0 0 fails0 o b f h
  omega

/-- Test environment for the C6 witness: test a passes, test b fails. -/
def exC6 (t : String × Bool) : ExecEnv :=
  if t.1 = "testsuite/good/a" then envGoodPass else envGoodFail

/-- Witness for C6 at a concrete input: a typecheck pass over two tests, one
passing and one failing, ends with counters summing to the total. -/
theorem C6_pass_counts_witness : 1 + 1 =
    ([("testsuite/good/a", true), ("testsuite/good/b", true)] :
      List (String × Bool)).length :=
  C6_pass_counts exC6 false
    [("testsuite/good/a", true), ("testsuite/good/b", true)] [] 1 1
    [("testsuite/good/b", ⟨"Type ERROR", "OK", "", "", ""⟩)] rfl

/-- Membership after clean_files: a removed name is gone. -/
theorem not_mem_clean_files (files present : List String) (x : String)
    (hx : x ∈ files) : x ∉ clean_files files present := by
  intro hmem
  simp only [clean_files, List.mem_filter, List.contains, List.elem_eq_mem,
    Bool.not_eq_true', decide_eq_false_iff_not] at hmem
  exact hmem.2 hx

/-- C9: on every exit path of the backend link step, including the paths
where an external tool fails and a session-fatal condition is raised, the
temporary files of the step (the temporary bitcode file and main.bc for the
LLVM backend; the temporary assembly and object files for the x86 backends)
are removed before control returns. -/
theorem C9_link_cleanup :
    (∀ (tools : LlvmTools) (tmp : String) (present : List String),
        tmp ∉ (link_llvm tools tmp present).2 ∧
        "main.bc" ∉ (link_llvm tools tmp present).2) ∧
    (∀ (tools : X86Tools) (tmp_s tmp_o : String) (present : List String),
        tmp_s ∉ (link_x86 tools tmp_s tmp_o present).2 ∧
        tmp_o ∉ (link_x86 tools tmp_s tmp_o present).2) := by
  constructor
  · intro tools tmp present
    obtain ⟨aok, lok, cok⟩ := tools
    cases aok <;> cases lok <;> cases cok <;>
      exact ⟨not_mem_clean_files _ _ _ (by simp),
        not_mem_clean_files _ _ _ (by simp)⟩
  · intro tools tmp_s tmp_o present
    obtain ⟨nok, cok⟩ := tools
    cases nok <;> cases cok <;>
      exact ⟨not_mem_clean_files _ _ _ (by simp),
        not_mem_clean_files _ _ _ (by simp)⟩

/-- Frame lemma for run_pass: the starting failures list only prefixes the
final one; running the same pass from an empty failures list produces the
same counters and the same new records. -/
theorem run_pass_acc (ex : String × Bool → ExecEnv) (hl : Bool)
    (tests : List (String × Bool)) :
    ∀ (tests_ok tests_bad : Nat) (fails : List (String × CompileData)),
      run_pass ex hl tests tests_ok tests_bad fails =
        Except.map (fun r => (r.1, r.2.1, fails ++ r.2.2))
          (run_pass ex hl tests tests_ok tests_bad []) := by
  induction tests with
  | nil =>
    intro tests_ok tests_bad fails
    simp [run_pass, Except.map]
  | cons t rest ih =>
    intro tests_ok tests_bad fails
    cases hres : (exec_test (ex t) t.2 hl).result with
    | error e => simp [run_pass, hres, Except.map]
    | ok v =>
      obtain ⟨is_ok, data⟩ := v
      cases is_ok with
      | true =>
        simp only [run_pass, hres, if_true]
        exact ih (tests_ok + 1) tests_bad fails
      | false =>
        simp only [run_pass, hres, Bool.false_eq_true, if_false,
          List.nil_append]
        rw [ih tests_ok (tests_bad + 1) (fails ++ [(t.1, data)]),
          ih tests_ok (tests_bad + 1) [(t.1, data)]]
        cases run_pass ex hl rest tests_ok (tests_bad + 1) [] with
        | error e => simp [Except.map]
        | ok r => simp [Except.map]

/-- Backend passes accumulate failure records: a completed run over any
backend list ends with the starting failures followed by the concatenation
of the records each pass produces on its own, in pass order. -/
theorem run_backend_passes_failures (env : String → String × Bool → ExecEnv)
    (tests : List (String × Bool)) :
    ∀ (backends : List String) (ok0 bad0 : Nat)
      (fails0 : List (String × CompileData)) (r : RunResult),
      run_backend_passes env tests backends ok0 bad0 fails0 = Except.ok r →
      ∃ fss, per_pass_failures env tests backends = some fss ∧
        r.failures = fails0 ++ fss.flatten := by
  intro backends
  induction backends with
  | nil =>
    intro ok0 bad0 fails0 r h
    simp only [run_backend_passes] at h
    injection h with h2
    subst h2
    exact ⟨[], rfl, by simp⟩
  | cons b rest ih =>
    intro ok0 bad0 fails0 r h
    simp only [run_backend_passes] at h
    cases hp : run_pass (env b) true tests 0 0 fails0 with
    | error e => rw [hp] at h; exact absurd h (by simp)
    | ok v =>
      obtain ⟨o1, b1, f1⟩ := v
      rw [hp] at h
      rw [run_pass_acc] at hp
      cases hq : run_pass (env b) true tests 0 0 [] with
      | error e => rw [hq] at hp; exact absurd hp (by simp [Except.map])
      | ok w =>
        obtain ⟨o2, b2, fb⟩ := w
        rw [hq] at hp
        simp only [Except.map, Except.ok.injEq, Prod.mk.injEq] at hp
        obtain ⟨ho, hb, hf⟩ := hp
        obtain ⟨fss, hper, hfl⟩ := ih o1 b1 f1 r h
        refine ⟨fb :: fss, ?_, ?_⟩
        · simp only [per_pass_failures, hq, hper]
          rfl
        · rw [hfl, ← hf, List.flatten_cons, List.append_assoc]

/-- Environment for the C10 scenario: the single test fails under the llvm
pass and passes under the x86 pass. -/
def envC10 (b : String) (_t : String × Bool) : ExecEnv :=
  if b = "llvm" then envGoodFail else envGoodPass

/-- C10 counterexample: in a two-backend run whose only failure happened in
the first pass, a failing (test case, backend pass) combination exists (the
final failures list holds its record), yet the rendered failure-detail
section is empty, because the line 533 success flag computed from the last
pass suppresses the rendering.  This refutes the claim that the rendered
section always contains one record per failing combination. -/
theorem C10_counterexample :
    (run_tests envC10 ["llvm", "x86"] [("t", true)]).map RunResult.failures =
      Except.ok [("t", ⟨"Type ERROR", "OK", "", "", ""⟩)] ∧
    (run_tests envC10 ["llvm", "x86"] [("t", true)]).map show_results =
      Except.ok [] :=
  ⟨rfl, rfl⟩

/-- C10 amended: the failures list is never reset between passes — after a
completed multi-backend run it is the concatenation, in execution order, of
the records each pass produces — and whenever the failure-detail section is
rendered at all (the success flag is false) it shows exactly that
concatenation, with no per-backend separation. -/
theorem C10_failures_accumulate (env : String → String × Bool → ExecEnv)
    (tests : List (String × Bool)) (backends : List String) (r : RunResult)
    (hne : backends ≠ []) (h : run_tests env backends tests = Except.ok r) :
    ∃ fss, per_pass_failures env tests backends = some fss ∧
      r.failures = fss.flatten ∧
      (r.success = false → show_results r = fss.flatten) := by
  cases backends with
  | nil => exact absurd rfl hne
  | cons b rest =>
    simp only [run_tests, List.isEmpty_cons, Bool.false_eq_true, if_false] at h
    obtain ⟨fss, hper, hfl⟩ :=
      run_backend_passes_failures env tests (b :: rest) 0 0 [] r h
    refine ⟨fss, hper, by simpa using hfl, ?_⟩
    intro hs
    simp [show_results, hs, hfl]

/-- Witness for C10 at a concrete input: the two-pass run of envC10
completes, and its failures list is the flattening of the per-pass failure
lists. -/
theorem C10_failures_accumulate_witness :
    ∃ fss, per_pass_failures envC10 [("t", true)] ["llvm", "x86"] = some fss ∧
      (⟨1, 0, [("t", ⟨"Type ERROR", "OK", "", "", ""⟩)], true⟩ :
        RunResult).failures = fss.flatten ∧
      ((⟨1, 0, [("t", ⟨"Type ERROR", "OK", "", "", ""⟩)], true⟩ :
        RunResult).success = false →
        show_results ⟨1, 0, [("t", ⟨"Type ERROR", "OK", "", "", ""⟩)], true⟩ =
          fss.flatten) :=
  C10_failures_accumulate envC10 [("t", true)] ["llvm", "x86"]
    ⟨1, 0, [("t", ⟨"Type ERROR", "OK", "", "", ""⟩)], true⟩
    (by simp) rfl

/-- Environment for the C2 scenario: the single test fails under the llvm
pass and passes under the x86 pass. -/
def envC2 (b : String) (_t : String × Bool) : ExecEnv :=
  if b = "llvm" then envGoodFail else envGoodPass

/-- C2: evaluation at the failing input.  In the two-backend run the first
pass records one failed test, yet the overall success flag is true, because
line 533 compares only the final counters — reset at the start of each pass —
against the total.  The code therefore contradicts the stated conjunction
over every executed pass (and prints the success banner while a recorded
failure exists). -/
theorem C2_success_ignores_earlier_passes :
    (run_tests envC2 ["llvm", "x86"] [("t", true)]).map RunResult.success =
      Except.ok true ∧
    (run_pass (envC2 "llvm") true [("t", true)] 0 0 []).map
      (fun r => r.2.1) = Except.ok 1 :=
  ⟨rfl, rfl⟩

/-- Environment for the C1 scenario: the typecheck pass fails its only
test and no session-fatal condition occurs. -/
def envC1 (_b : String) (_t : String × Bool) : ExecEnv := envGoodFail

/-- C1 counterexample: a session whose only pass records one failed test and
raises no session-fatal condition still exits with code 0, refuting the
claim that any per-test failure makes the exit code non-zero. -/
theorem C1_counterexample :
    main_exit (run_tests envC1 [] [("t", true)]) = 0 ∧
    (run_tests envC1 [] [("t", true)]).map RunResult.tests_bad =
      Except.ok 1 :=
  ⟨rfl, rfl⟩

/-- C1 amended: the process exit code is 0 exactly when no session-fatal
condition occurred (the run completed without raising); per-test failures
recorded during the passes have no effect on the exit code. -/
theorem C1_exit_zero_iff_no_fatal (env : String → String × Bool → ExecEnv)
    (backends : List String) (tests : List (String × Bool)) :
    main_exit (run_tests env backends tests) = 0 ↔
    ∃ r, run_tests env backends tests = Except.ok r := by
  cases h : run_tests env backends tests <;> simp [main_exit, h]

/-- Filesystem with no directories at all: every listdir call reports a
missing directory. -/
def fsMissing : FS :=
  { listdir := fun _ => none
    isfile := fun _ => false }

/-- C8 counterexample: scanning the fixed good directory on a filesystem
where it is missing raises an error (the os.listdir FileNotFoundError)
instead of yielding zero entries, refuting the claim that a missing fixture
root produces no error. -/
theorem C8_counterexample :
    build_list fsMissing [] "testsuite/good" true =
      Except.error "FileNotFoundError: testsuite/good" :=
  rfl

/-- C8 amended: catalog construction succeeds only when the scanned
directory exists (a missing directory raises, aborting the session), and
every entry it adds beyond the accumulator comes from a regular file whose
extension is .jl, entered with the base name of that file and the expected
outcome of the directory. -/
theorem C8_missing_dir_raises_and_jl_filter (fs : FS)
    (tests : List (String × Bool)) (path : String) (g : Bool)
    (out : List (String × Bool))
    (h : build_list fs tests path g = Except.ok out) :
    ∃ names, fs.listdir path = some names ∧
      ∀ e ∈ out, e ∈ tests ∨ ∃ fname, fname ∈ names ∧
        fs.isfile (pathjoin path fname) = true ∧
        (splitext fname).2 = ".jl" ∧
        e = (pathjoin path (splitext fname).1, g) := by
  unfold build_list at h
  cases hld : fs.listdir path with
  | none => rw [hld] at h; exact absurd h (by simp)
  | some names =>
    rw [hld] at h
    injection h with h2
    refine ⟨names, rfl, ?_⟩
    intro e he
    rw [← h2] at he
    rcases List.mem_append.mp he with h1 | h1
    · exact Or.inl h1
    · right
      obtain ⟨fname, hmem, hf⟩ := List.mem_filterMap.mp h1
      by_cases hfile : fs.isfile (pathjoin path fname) = true
      · rw [if_pos hfile] at hf
        by_cases hext : (splitext fname).2 = ".jl"
        · rw [if_pos hext] at hf
          exact ⟨fname, hmem, hfile, hext, (Option.some.inj hf).symm⟩
        · rw [if_neg hext] at hf
          exact absurd hf (by simp)
      · rw [if_neg hfile] at hf
        exact absurd hf (by simp)

/-- Filesystem for the C8 witness: the good directory holds one Javalette
source and one unrelated file. -/
def fsGood : FS :=
  { listdir := fun p =>
      if p = "testsuite/good" then some ["a.jl", "b.txt"] else none
    isfile := fun _ => true }

/-- Witness for C8 at a concrete input: scanning the existing good directory
of fsGood succeeds, and the single produced entry satisfies the filter. -/
theorem C8_missing_dir_raises_and_jl_filter_witness :
    ∃ names, fsGood.listdir "testsuite/good" = some names ∧
      ∀ e ∈ [(("testsuite/good/a" : String), true)],
        e ∈ ([] : List (String × Bool)) ∨ ∃ fname, fname ∈ names ∧
          fsGood.isfile (pathjoin "testsuite/good" fname) = true ∧
          (splitext fname).2 = ".jl" ∧
          e = (pathjoin "testsuite/good" (splitext fname).1, true) :=
  C8_missing_dir_raises_and_jl_filter fsGood [] "testsuite/good" true
    [("testsuite/good/a", true)] rfl

end Testing
